import Mathlib

/-!
Shallow embedding of `time-loguru` (`src/time_loguru/tracker.py`) in Lean 4.

Modelling conventions:
* Python floats become `ℚ` (exact rationals), so "within floating tolerance"
  statements hold exactly.
* The Python `dict` (`TimeTracker._records`), which preserves insertion order,
  becomes an association list `List (String × List ℚ)`.
* Exceptions become explicit: a function that can raise returns the raised
  message alongside the state it leaves behind (Python mutations performed
  before the raise persist, and the embedding keeps them).
* Calls on the loguru logger become `Emission` values collected in a list;
  loguru itself is an external collaborator and is not modelled.
* `time.perf_counter` readings become explicit `ℚ` arguments.
-/

namespace TimeLoguru

/-- One message handed to the logger collaborator: the severity level name,
the final message text, and the distinguishing bound context (`kind` is
`"event"` or `"summary"`; `status` is only bound on event lines). -/
structure Emission where
  level : String
  text : String
  kind : String
  status : Option String
deriving DecidableEq

/-- The `TaskStats` frozen dataclass of `tracker.py`. -/
structure TaskStats where
  task : String
  count : Nat
  total_s : ℚ
  avg_s : ℚ
  min_s : ℚ
  max_s : ℚ
  last_s : ℚ
deriving DecidableEq

/-- The mutable state of one `TimeTracker` instance: the sample store
`_records` plus the tracker-owned knobs set in `__init__`. -/
structure TrackerState where
  records : List (String × List ℚ)
  emit_each : Bool
  time_unit : String
  summary_level : String
deriving DecidableEq

/-- The state produced by `TimeTracker.__init__`. -/
def TimeTracker.initState : TrackerState :=
  { records := [], emit_each := false, time_unit := "s", summary_level := "INFO" }

/-- Spec-side accessor: the sample list stored for a task (first matching key,
as in a Python dict where keys are unique). -/
def lookupSamples : List (String × List ℚ) → String → Option (List ℚ)
  | [], _ => none
  | (t, d) :: rest, task => if t = task then some d else lookupSamples rest task

/-- `self._records.setdefault(task, []).append(elapsed_s)`: append a sample to
the task's list, creating the entry at the end if the key is new (Python dicts
append new keys in insertion order). -/
def appendSample : List (String × List ℚ) → String → ℚ → List (String × List ℚ)
  | [], task, e => [(task, [e])]
  | (t, d) :: rest, task, e =>
      if t = task then (t, d ++ [e]) :: rest else (t, d) :: appendSample rest task e

/-- Round a rational to the nearest integer, ties to even — the rounding that
Python's fixed-point float formatting performs on representable values. -/
def roundHalfEven (q : ℚ) : ℤ :=
  let f := ⌊q⌋
  let frac := q - f
  if frac < 1/2 then f
  else if 1/2 < frac then f + 1
  else if f % 2 = 0 then f else f + 1

/-- Left-pad a string with `'0'` up to width `w`. -/
def padZeros (w : Nat) (s : String) : String :=
  String.mk (List.replicate (w - s.length) '0') ++ s

/-- Python's `f"{x:.{prec}f}"` on a non-negative value: fixed-point rendering
with `prec` fractional digits. -/
def formatFixed (q : ℚ) (prec : Nat) : String :=
  let n := (roundHalfEven (q * (10 : ℚ) ^ prec)).toNat
  let ip := n / 10 ^ prec
  let fp := n % 10 ^ prec
  if prec = 0 then toString ip
  else toString ip ++ "." ++ padZeros prec (toString fp)

/-- `TimeTracker._fmt_time`: render a duration stored in seconds, honouring the
configured `time_unit`. -/
def _fmt_time (time_unit : String) (seconds : ℚ) : String :=
  if time_unit = "ms" then formatFixed (seconds * 1000) 3 ++ " ms"
  else formatFixed seconds 6 ++ " s"

/-- `TimeTracker._compute_stats`: per-task statistics for every task with at
least one sample, in store (insertion) order. `min(d)` / `max(d)` are folds of
`min` / `max` over the list, `d[-1]` is the last element. -/
def _compute_stats : List (String × List ℚ) → List TaskStats
  | [] => []
  | (_, []) :: rest => _compute_stats rest
  | (task, x :: xs) :: rest =>
      let total := (x :: xs).sum
      let count := (x :: xs).length
      { task := task
        count := count
        total_s := total
        avg_s := total / (count : ℚ)
        min_s := xs.foldl min x
        max_s := xs.foldl max x
        last_s := (x :: xs).getLast (List.cons_ne_nil x xs) } :: _compute_stats rest

/-- The `_TaskContext` scoped timer: task name, severity level name, and the
start instant captured by `__enter__` (`None` before entry). -/
structure _TaskContext where
  task : String
  level_name : String
  t0 : Option ℚ
deriving DecidableEq

/-- Python's `str.strip()`: drop leading and trailing whitespace. -/
def strip (s : String) : String :=
  String.mk (((s.data.dropWhile Char.isWhitespace).reverse.dropWhile
    Char.isWhitespace).reverse)

/-- `TimeTracker._ctx`: validates the task name then builds the context with
the stripped name.  Raises `ValueError` on an empty / whitespace-only name
(`not task.strip()`). -/
def _ctx (task : String) (level_name : String) : Except String _TaskContext :=
  if strip task = "" then .error "task name must be a non-empty string"
  else .ok { task := strip task, level_name := level_name, t0 := none }

/-- `TimeTracker.trace`. -/
def trace (task : String) : Except String _TaskContext := _ctx task "TRACE"

/-- `TimeTracker.debug`. -/
def debug (task : String) : Except String _TaskContext := _ctx task "DEBUG"

/-- `TimeTracker.info`. -/
def info (task : String) : Except String _TaskContext := _ctx task "INFO"

/-- `TimeTracker.success`. -/
def success (task : String) : Except String _TaskContext := _ctx task "SUCCESS"

/-- `TimeTracker.warning`. -/
def warning (task : String) : Except String _TaskContext := _ctx task "WARNING"

/-- `TimeTracker.error`. -/
def error (task : String) : Except String _TaskContext := _ctx task "ERROR"

/-- `TimeTracker.critical`. -/
def critical (task : String) : Except String _TaskContext := _ctx task "CRITICAL"

/-- `TimeTracker._record`: append the sample to the store; if `emit_each` is
set, additionally emit one event line at the timer's level (loguru formats the
template `"task={task} | elapsed={elapsed}"` with the given fields). -/
def _record (st : TrackerState) (task : String) (elapsed_s : ℚ)
    (level_name : String) (exc_type : Option String) : TrackerState × List Emission :=
  let st' := { st with records := appendSample st.records task elapsed_s }
  if st'.emit_each then
    let status := match exc_type with
      | none => "OK"
      | some n => "EXC:" ++ n
    (st', [{ level := level_name,
             text := "task=" ++ task ++ " | elapsed=" ++ _fmt_time st'.time_unit elapsed_s,
             kind := "event"
             status := some status }])
  else (st', [])

/-- `_TaskContext.__exit__`: read the clock (`t1`), fall back to `t1` when no
start instant was captured, clamp the difference at zero, record the sample,
and return `False` (the third component), so the exception — if any — is never
suppressed and propagates unchanged. -/
def _TaskContext.onExit (c : _TaskContext) (st : TrackerState) (t1 : ℚ)
    (exc_type : Option String) : TrackerState × List Emission × Bool :=
  let t0 := c.t0.getD t1
  let elapsed := max 0 (t1 - t0)
  let r := _record st c.task elapsed c.level_name exc_type
  (r.1, r.2, false)

/-- `TimeTracker.configure`: the sequence of guarded field updates performed
under the lock.  The second component is the message of the `ValueError`
raised for an unrecognised `time_unit` (`none` when the call succeeds); the
first component is the state the tracker is left in, including any mutation
performed before the raise.  On success Python returns `self`, i.e. the
tracker carrying the first component. -/
def configure (st : TrackerState) (emit_each : Option Bool)
    (time_unit : Option String) (summary_level : Option String) :
    TrackerState × Option String :=
  let st1 := match emit_each with
    | some b => { st with emit_each := b }
    | none => st
  match time_unit with
  | some u =>
      if u = "ms" ∨ u = "s" then
        let st2 := { st1 with time_unit := u }
        (match summary_level with
          | some s => { st2 with summary_level := s }
          | none => st2, none)
      else (st1, some "time_unit must be \"ms\" or \"s\"")
  | none =>
      (match summary_level with
        | some s => { st1 with summary_level := s }
        | none => st1, none)

/-- `TimeTracker.clear`: empty the sample store, leaving configuration alone. -/
def clear (st : TrackerState) : TrackerState :=
  { st with records := [] }

/-- A sort key value produced by one of the `key_funcs` lambdas: numeric for
`total`/`avg`/`count`/`max`/`min`, a string for `task`. -/
inductive SortVal
  | num (q : ℚ)
  | str (s : String)

/-- Python `<=` on sort key values (keys produced by one `key_funcs` entry are
always homogeneous, so the mixed cases are unreachable). -/
def SortVal.le : SortVal → SortVal → Bool
  | .num a, .num b => decide (a ≤ b)
  | .str a, .str b => !(decide (b < a))
  | _, _ => false

/-- The `key_funcs` dict of `TimeTracker.summary`: maps a `sort_by` name to
the key extractor, `none` for an unrecognised name. -/
def key_funcs (sort_by : String) : Option (TaskStats → SortVal) :=
  if sort_by = "total" then some fun s => .num s.total_s
  else if sort_by = "avg" then some fun s => .num s.avg_s
  else if sort_by = "count" then some fun s => .num (s.count : ℚ)
  else if sort_by = "max" then some fun s => .num s.max_s
  else if sort_by = "min" then some fun s => .num s.min_s
  else if sort_by = "task" then some fun s => .str s.task.toLower
  else none

/-- The key names of `key_funcs`, in dict order (used for the error text). -/
def keyNames : List String := ["total", "avg", "count", "max", "min", "task"]

/-- Stable insertion of `x` before the first element `y` with `le x y`. -/
def orderedInsertB {α : Type} (le : α → α → Bool) (x : α) : List α → List α
  | [] => [x]
  | y :: ys => if le x y then x :: y :: ys else y :: orderedInsertB le x ys

/-- Stable insertion sort.  Python's `list.sort` (Timsort) is also stable, so
on the total orders used here both produce the same output. -/
def insertionSortB {α : Type} (le : α → α → Bool) : List α → List α
  | [] => []
  | x :: xs => orderedInsertB le x (insertionSortB le xs)

/-- `stats.sort(key=key_funcs[sort_by], reverse=descending)`: a stable sort;
with `reverse=True` elements of larger key come first and equal keys keep
their original relative order. -/
def sortStats (sort_by : String) (descending : Bool)
    (stats : List TaskStats) : List TaskStats :=
  match key_funcs sort_by with
  | some k =>
      insertionSortB
        (fun s t => if descending then SortVal.le (k t) (k s) else SortVal.le (k s) (k t))
        stats
  | none => stats

/-- `stats = stats[: max(0, int(limit))]` when a limit is given. -/
def applyLimit (limit : Option ℤ) (stats : List TaskStats) : List TaskStats :=
  match limit with
  | some n => stats.take (max 0 n).toNat
  | none => stats

/-- Right-pad with spaces to width `w` (Python `f"{s:<w}"` / `f"{s:w}"`). -/
def padRight (s : String) (w : Nat) : String :=
  s ++ String.mk (List.replicate (w - s.length) ' ')

/-- Left-pad with spaces to width `w` (Python `f"{s:>w}"`). -/
def padLeft (s : String) (w : Nat) : String :=
  String.mk (List.replicate (w - s.length) ' ') ++ s

/-- The header row of the summary table. -/
def headerRow : String :=
  padRight "TASK" 30 ++ "  " ++ padLeft "COUNT" 7 ++ "  " ++ padLeft "TOTAL" 14 ++
    "  " ++ padLeft "AVG" 14 ++ "  " ++ padLeft "MIN" 14 ++ "  " ++
    padLeft "MAX" 14 ++ "  " ++ padLeft "LAST" 14

/-- One data row of the summary table (task name truncated to 30 chars). -/
def statRow (time_unit : String) (s : TaskStats) : String :=
  padRight (String.mk (s.task.data.take 30)) 30 ++ "  " ++
    padLeft (toString s.count) 7 ++ "  " ++
    padLeft (_fmt_time time_unit s.total_s) 14 ++ "  " ++
    padLeft (_fmt_time time_unit s.avg_s) 14 ++ "  " ++
    padLeft (_fmt_time time_unit s.min_s) 14 ++ "  " ++
    padLeft (_fmt_time time_unit s.max_s) 14 ++ "  " ++
    padLeft (_fmt_time time_unit s.last_s) 14

/-- `grand_total = sum(s.total_s for s in stats)` over the rendered records. -/
def grandTotal (stats : List TaskStats) : ℚ :=
  (stats.map TaskStats.total_s).sum

/-- The closing grand-total row. -/
def totalRow (time_unit : String) (stats : List TaskStats) : String :=
  padRight "TOTAL (all tasks)" 30 ++ "  " ++ padLeft "" 7 ++ "  " ++
    padLeft (_fmt_time time_unit (grandTotal stats)) 14

/-- `TimeTracker._render_summary`: title, rule, and either `"(no data)"` or
header / rows / rule / grand-total row, joined by newlines. -/
def _render_summary (time_unit : String) (stats : List TaskStats)
    (title : String) : String :=
  let rule := String.mk (List.replicate (max 24 title.length) '-')
  match stats with
  | [] => String.intercalate "\n" [title, rule, "(no data)"]
  | _ =>
      String.intercalate "\n"
        ([title, rule, headerRow, String.mk (List.replicate headerRow.length '-')] ++
          stats.map (statRow time_unit) ++
          [String.mk (List.replicate headerRow.length '-'), totalRow time_unit stats])

/-- `TimeTracker.summary`: compute stats, validate `sort_by`, sort, truncate,
render, emit one raw message at `summary_level`, optionally clear the store,
and return the rendered text.  An unrecognised `sort_by` raises before any
emission or store mutation. -/
def summary (st : TrackerState) (sort_by : String) (descending : Bool)
    (limit : Option ℤ) (reset : Bool) (title : String) :
    TrackerState × List Emission × Except String String :=
  let stats := _compute_stats st.records
  if sort_by ∈ keyNames then
    let sorted := sortStats sort_by descending stats
    let limited := applyLimit limit sorted
    let rendered := _render_summary st.time_unit limited title
    let st' := if reset then clear st else st
    (st', [{ level := st.summary_level, text := rendered ++ "\n",
             kind := "summary", status := none }], .ok rendered)
  else
    (st, [], .error ("sort_by must be one of: " ++ String.intercalate ", " keyNames))

/-- The sample store of the spec's worked example: tasks `A`, `B`, `C` whose
sample lists total 5, 1 and 3 seconds. -/
def stABC : List (String × List ℚ) := [("A", [5]), ("B", [1]), ("C", [3])]

/-! ### Helper lemmas -/

lemma lookupSamples_appendSample (rs : List (String × List ℚ)) (task : String) (e : ℚ) :
    lookupSamples (appendSample rs task e) task =
      some ((lookupSamples rs task).getD [] ++ [e]) := by
  induction rs with
  | nil => simp [appendSample, lookupSamples]
  | cons p rest ih =>
    obtain ⟨t, d⟩ := p
    by_cases h : t = task
    · subst h
      simp [appendSample, lookupSamples]
    · simp [appendSample, lookupSamples, h, ih]

lemma _record_fst (st : TrackerState) (task : String) (e : ℚ) (lvl : String)
    (exc : Option String) :
    (_record st task e lvl exc).1 =
      { st with records := appendSample st.records task e } := by
  simp only [_record]
  split <;> rfl

lemma foldl_min_mem (x : ℚ) (xs : List ℚ) : xs.foldl min x ∈ x :: xs := by
  induction xs generalizing x with
  | nil => simp
  | cons y ys ih =>
    have h := ih (min x y)
    rw [List.foldl_cons]
    rcases List.mem_cons.mp h with h1 | h1
    · rw [h1]
      rcases min_choice x y with h2 | h2 <;> rw [h2] <;> simp
    · simp [h1]

lemma foldl_min_le (x : ℚ) (xs : List ℚ) : ∀ y ∈ x :: xs, xs.foldl min x ≤ y := by
  induction xs generalizing x with
  | nil =>
    intro y hy
    rw [List.mem_singleton] at hy
    simp [hy]
  | cons z zs ih =>
    intro y hy
    have hhead : zs.foldl min (min x z) ≤ min x z :=
      ih (min x z) (min x z) (List.mem_cons_self _ _)
    rw [List.foldl_cons]
    rcases List.mem_cons.mp hy with h1 | h1
    · subst h1
      exact le_trans hhead (min_le_left _ _)
    · rcases List.mem_cons.mp h1 with h2 | h2
      · subst h2
        exact le_trans hhead (min_le_right _ _)
      · exact ih (min x z) y (List.mem_cons_of_mem _ h2)

lemma foldl_max_mem (x : ℚ) (xs : List ℚ) : xs.foldl max x ∈ x :: xs := by
  induction xs generalizing x with
  | nil => simp
  | cons y ys ih =>
    have h := ih (max x y)
    rw [List.foldl_cons]
    rcases List.mem_cons.mp h with h1 | h1
    · rw [h1]
      rcases max_choice x y with h2 | h2 <;> rw [h2] <;> simp
    · simp [h1]

lemma foldl_max_le (x : ℚ) (xs : List ℚ) : ∀ y ∈ x :: xs, y ≤ xs.foldl max x := by
  induction xs generalizing x with
  | nil =>
    intro y hy
    rw [List.mem_singleton] at hy
    simp [hy]
  | cons z zs ih =>
    intro y hy
    have hhead : max x z ≤ zs.foldl max (max x z) :=
      ih (max x z) (max x z) (List.mem_cons_self _ _)
    rw [List.foldl_cons]
    rcases List.mem_cons.mp hy with h1 | h1
    · subst h1
      exact le_trans (le_max_left _ _) hhead
    · rcases List.mem_cons.mp h1 with h2 | h2
      · subst h2
        exact le_trans (le_max_right _ _) hhead
      · exact ih (max x z) y (List.mem_cons_of_mem _ h2)

lemma roundHalfEven_natCast (m : ℕ) : roundHalfEven (m : ℚ) = m := by
  norm_num [roundHalfEven]

lemma formatFixed_eq_of_cast (q : ℚ) (prec m : ℕ) (h : q * (10 : ℚ) ^ prec = (m : ℚ)) :
    formatFixed q prec =
      if prec = 0 then toString (m / 10 ^ prec)
      else toString (m / 10 ^ prec) ++ "." ++ padZeros prec (toString (m % 10 ^ prec)) := by
  simp only [formatFixed, h, roundHalfEven_natCast, Int.toNat_natCast]

lemma sortStats_nil (sb : String) (d : Bool) : sortStats sb d [] = [] := by
  unfold sortStats
  cases key_funcs sb <;> simp [insertionSortB]

lemma applyLimit_nil (lim : Option ℤ) : applyLimit lim [] = [] := by
  cases lim <;> simp [applyLimit]

/-! ### Claims -/

/-- C1: for every task with N ≥ 1 recorded samples, the statistics record the
summary path computes for it has `count = N`, `total` the sum of the samples,
`avg = total / count`, `min` the minimum sample, `max` the maximum sample, and
`last` the most recently appended sample. -/
theorem compute_stats_spec (records : List (String × List ℚ)) (task : String)
    (d : List ℚ) (hmem : (task, d) ∈ records) (hne : d ≠ []) :
    ∃ s ∈ _compute_stats records,
      s.task = task ∧ s.count = d.length ∧ s.total_s = d.sum ∧
      s.avg_s = s.total_s / (s.count : ℚ) ∧
      s.min_s ∈ d ∧ (∀ y ∈ d, s.min_s ≤ y) ∧
      s.max_s ∈ d ∧ (∀ y ∈ d, y ≤ s.max_s) ∧
      s.last_s = d.getLast hne := by
  induction records with
  | nil => cases hmem
  | cons p rest ih =>
    obtain ⟨t, dd⟩ := p
    rcases List.mem_cons.mp hmem with h | h
    · injection h with ht hd
      subst ht
      subst hd
      match d, hne with
      | x :: xs, _ =>
        simp only [_compute_stats]
        exact ⟨_, List.mem_cons_self _ _, rfl, rfl, rfl, rfl,
          foldl_min_mem x xs, foldl_min_le x xs,
          foldl_max_mem x xs, foldl_max_le x xs, rfl⟩
    · match dd with
      | [] =>
        simp only [_compute_stats]
        exact ih h
      | y :: ys =>
        simp only [_compute_stats]
        obtain ⟨s, hs, hprops⟩ := ih h
        exact ⟨s, List.mem_cons_of_mem _ hs, hprops⟩

/-- C1 witness: the statistics record for task `"A"` with samples `[1, 2]`. -/
theorem compute_stats_spec_witness :
    ∃ s ∈ _compute_stats [("A", [(1 : ℚ), 2])],
      s.task = "A" ∧ s.count = ([(1 : ℚ), 2] : List ℚ).length ∧
      s.total_s = ([(1 : ℚ), 2] : List ℚ).sum ∧
      s.avg_s = s.total_s / (s.count : ℚ) ∧
      s.min_s ∈ [(1 : ℚ), 2] ∧ (∀ y ∈ [(1 : ℚ), 2], s.min_s ≤ y) ∧
      s.max_s ∈ [(1 : ℚ), 2] ∧ (∀ y ∈ [(1 : ℚ), 2], y ≤ s.max_s) ∧
      s.last_s = ([(1 : ℚ), 2] : List ℚ).getLast (List.cons_ne_nil 1 [2]) :=
  compute_stats_spec [("A", [1, 2])] "A" [1, 2] (List.mem_cons_self _ _)
    (List.cons_ne_nil 1 [2])

/-- C2: `__exit__` always returns `False` (third component), so an error raised
in the guarded block is never suppressed or transformed and propagates
unchanged; the sample for the invocation is nevertheless appended to the
store before propagation continues. -/
theorem exit_propagates_and_records (st : TrackerState) (c : _TaskContext)
    (t1 : ℚ) (exc : Option String) :
    (c.onExit st t1 exc).2.2 = false ∧
    lookupSamples (c.onExit st t1 exc).1.records c.task =
      some ((lookupSamples st.records c.task).getD [] ++ [max 0 (t1 - c.t0.getD t1)]) := by
  refine ⟨rfl, ?_⟩
  show lookupSamples
      (_record st c.task (max 0 (t1 - c.t0.getD t1)) c.level_name exc).1.records c.task = _
  rw [_record_fst]
  exact lookupSamples_appendSample st.records c.task _

/-- C3: on release, the sample a scoped timer records is exactly
`max 0 (end - start)`, and is therefore non-negative even when the end clock
reading is smaller than the start reading. -/
theorem exit_elapsed_clamped (st : TrackerState) (task lvl : String) (t0 t1 : ℚ)
    (exc : Option String) :
    lookupSamples ((_TaskContext.mk task lvl (some t0)).onExit st t1 exc).1.records task =
      some ((lookupSamples st.records task).getD [] ++ [max 0 (t1 - t0)]) ∧
    0 ≤ max 0 (t1 - t0) := by
  constructor
  · show lookupSamples
        (_record st task (max 0 (t1 - (some t0).getD t1)) lvl exc).1.records task = _
    rw [_record_fst, Option.getD_some]
    exact lookupSamples_appendSample st.records task _
  · exact le_max_left 0 (t1 - t0)

/-- C4 counterexample: starting from the freshly constructed tracker, the call
`configure(emit_each=True, time_unit="x", summary_level="DEBUG")` is rejected
for its `time_unit`, yet it does not leave the configuration unchanged:
`emit_each` has already been flipped to `True` when the error is raised. -/
theorem configure_reject_mutates_cex :
    (configure TimeTracker.initState (some true) (some "x") (some "DEBUG")).2.isSome = true ∧
    (configure TimeTracker.initState (some true) (some "x") (some "DEBUG")).1 ≠
      TimeTracker.initState ∧
    (configure TimeTracker.initState (some true) (some "x") (some "DEBUG")).1.emit_each =
      true := by
  refine ⟨rfl, ?_, rfl⟩
  intro h
  have := congrArg TrackerState.emit_each h
  simp [configure, TimeTracker.initState] at this

/-- C4 amended: `configure` validates `time_unit ∈ {"ms", "s"}` and rejects
any other value with a `ValueError`; a rejected call leaves `time_unit`,
`summary_level` and the sample store unchanged, but an `emit_each` update
passed in the same call has already been applied when the error is raised; a
call without a `time_unit` argument, or with a recognised one, succeeds and
returns the tracker itself (carrying the updated state) for chaining. -/
theorem configure_validation_spec :
    (∀ (st : TrackerState) (b : Bool) (u : String) (sl : Option String),
      ¬(u = "ms" ∨ u = "s") →
      configure st (some b) (some u) sl =
        ({ st with emit_each := b }, some "time_unit must be \"ms\" or \"s\"")) ∧
    (∀ (st : TrackerState) (u : String) (sl : Option String),
      ¬(u = "ms" ∨ u = "s") →
      configure st none (some u) sl = (st, some "time_unit must be \"ms\" or \"s\"")) ∧
    (∀ (st : TrackerState) (e : Option Bool) (u : String) (sl : Option String),
      (u = "ms" ∨ u = "s") →
      (configure st e (some u) sl).2 = none ∧
      (configure st e (some u) sl).1.time_unit = u) ∧
    (∀ (st : TrackerState) (e : Option Bool) (sl : Option String),
      (configure st e none sl).2 = none) := by
  refine ⟨?_, ?_, ?_, ?_⟩
  · intro st b u sl h
    simp [configure, h]
  · intro st u sl h
    simp [configure, h]
  · intro st e u sl h
    cases e <;> cases sl <;> simp [configure, h]
  · intro st e sl
    cases e <;> cases sl <;> simp [configure]

/-- C4 witness: the amended statement evaluated on the counterexample call. -/
theorem configure_validation_spec_witness :
    configure TimeTracker.initState (some true) (some "x") (some "DEBUG") =
      ({ TimeTracker.initState with emit_each := true },
        some "time_unit must be \"ms\" or \"s\"") :=
  configure_validation_spec.1 TimeTracker.initState true "x" (some "DEBUG") (by decide)

/-- C7: every severity-level entry point rejects an empty or whitespace-only
task name with the `ValueError` of `_ctx`, before any timing begins (the
entry points never touch the sample store). -/
theorem levels_reject_blank_task (task : String) (h : strip task = "") :
    trace task = .error "task name must be a non-empty string" ∧
    debug task = .error "task name must be a non-empty string" ∧
    info task = .error "task name must be a non-empty string" ∧
    success task = .error "task name must be a non-empty string" ∧
    warning task = .error "task name must be a non-empty string" ∧
    error task = .error "task name must be a non-empty string" ∧
    critical task = .error "task name must be a non-empty string" := by
  refine ⟨?_, ?_, ?_, ?_, ?_, ?_, ?_⟩ <;>
    simp [trace, debug, info, success, warning, error, critical, _ctx, h]

/-- C7 witness: the whitespace-only task name `" "` is rejected everywhere. -/
theorem levels_reject_blank_task_witness :
    trace " " = .error "task name must be a non-empty string" ∧
    debug " " = .error "task name must be a non-empty string" ∧
    info " " = .error "task name must be a non-empty string" ∧
    success " " = .error "task name must be a non-empty string" ∧
    warning " " = .error "task name must be a non-empty string" ∧
    error " " = .error "task name must be a non-empty string" ∧
    critical " " = .error "task name must be a non-empty string" :=
  levels_reject_blank_task " " (by decide)

/-- C8: for every `sort_by` value outside the recognised set, `summary`
raises a `ValueError`, emits nothing through the logger, and leaves the
tracker state (including the sample store) unchanged. -/
theorem summary_rejects_bad_sort_by (st : TrackerState) (d : Bool)
    (lim : Option ℤ) (reset : Bool) (title sort_by : String)
    (h : sort_by ∉ keyNames) :
    summary st sort_by d lim reset title =
      (st, [], .error "sort_by must be one of: total, avg, count, max, min, task") := by
  simp only [summary, if_neg h]
  rfl

/-- C8 witness: `sort_by="bogus"` on the fresh tracker. -/
theorem summary_rejects_bad_sort_by_witness :
    summary TimeTracker.initState "bogus" true none false "T" =
      (TimeTracker.initState, [],
        .error "sort_by must be one of: total, avg, count, max, min, task") :=
  summary_rejects_bad_sort_by TimeTracker.initState true none false "T" "bogus" (by decide)

/-- C10: `summary_level` is never validated — `configure` succeeds for every
value passed as `summary_level` (when no `time_unit` is passed in the same
call), stores it verbatim, and `summary` later emits at exactly that stored
level; any invalid level can only fail inside the external logger. -/
theorem summary_level_unvalidated (st : TrackerState) (e : Option Bool)
    (s : String) (d : Bool) (lim : Option ℤ) (reset : Bool) (title : String) :
    (configure st e none (some s)).2 = none ∧
    (configure st e none (some s)).1.summary_level = s ∧
    ((summary (configure st e none (some s)).1 "total" d lim reset title).2.1).map
      Emission.level = [s] := by
    refine ⟨?_, ?_, ?_⟩
    · cases e <;> simp [configure]
    · cases e <;> simp [configure]
    · have hmem : "total" ∈ keyNames := by decide
      have hlvl : (configure st e none (some s)).1.summary_level = s := by
        cases e <;> simp [configure]
      simp only [summary, if_pos hmem, List.map_cons, List.map_nil, hlvl]

/-- C5 counterexample: on the spec's example store (A total 5, B total 1,
C total 3), `summary(sort_by="total", descending=True, limit=2)` renders the
records `[A, C]`, and its grand-total row sums exactly those rendered records:
it shows 8, not 9. -/
theorem summary_grand_total_cex :
    grandTotal (applyLimit (some 2) (sortStats "total" true (_compute_stats stABC))) = 8 ∧
    ¬ grandTotal (applyLimit (some 2) (sortStats "total" true (_compute_stats stABC))) = 9 := by
  have h8 : grandTotal (applyLimit (some 2) (sortStats "total" true (_compute_stats stABC))) = 8 := by
    norm_num [stABC, _compute_stats, sortStats, key_funcs, insertionSortB,
      orderedInsertB, SortVal.le, applyLimit, grandTotal]
    rw [show Int.toNat 2 = 2 from rfl]
    norm_num
  refine ⟨h8, ?_⟩
  rw [h8]
  norm_num

/-- C5 amended: `summary` sorts the records by the requested key in the
requested direction, then truncates to `limit` entries; on the example store
`sort_by="total"` descending yields order `[A, C, B]`, `limit=2` yields
`[A, C]`; the grand-total row sums `total` over exactly the records actually
rendered — 9 for the unlimited call and 8 for the `limit=2` call; and
`limit ≤ 0` yields the empty table body (`"(no data)"`), not an error. -/
theorem summary_sort_limit_spec :
    (sortStats "total" true (_compute_stats stABC)).map TaskStats.task = ["A", "C", "B"] ∧
    (applyLimit (some 2) (sortStats "total" true (_compute_stats stABC))).map
      TaskStats.task = ["A", "C"] ∧
    grandTotal (sortStats "total" true (_compute_stats stABC)) = 9 ∧
    grandTotal (applyLimit (some 2) (sortStats "total" true (_compute_stats stABC))) = 8 ∧
    ∀ (st : TrackerState) (lim : ℤ) (title : String), lim ≤ 0 →
      (summary st "total" true (some lim) false title).2.2 =
        .ok (String.intercalate "\n"
          [title, String.mk (List.replicate (max 24 title.length) '-'), "(no data)"]) := by
  refine ⟨?_, ?_, ?_, ?_, ?_⟩
  · norm_num [stABC, _compute_stats, sortStats, key_funcs, insertionSortB,
      orderedInsertB, SortVal.le]
  · norm_num [stABC, _compute_stats, sortStats, key_funcs, insertionSortB,
      orderedInsertB, SortVal.le, applyLimit]
    rw [show Int.toNat 2 = 2 from rfl]
    norm_num
  · norm_num [stABC, _compute_stats, sortStats, key_funcs, insertionSortB,
      orderedInsertB, SortVal.le, grandTotal]
  · norm_num [stABC, _compute_stats, sortStats, key_funcs, insertionSortB,
      orderedInsertB, SortVal.le, applyLimit, grandTotal]
    rw [show Int.toNat 2 = 2 from rfl]
    norm_num
  · intro st lim title h
    have htake : (max 0 lim).toNat = 0 := by omega
    simp [summary, keyNames, applyLimit, htake, _render_summary]

/-- C5 witness: `limit = 0` on the fresh tracker yields the empty table body
and no error. -/
theorem summary_sort_limit_spec_witness :
    (summary TimeTracker.initState "total" true (some 0) false "T").2.2 =
      .ok (String.intercalate "\n"
        ["T", String.mk (List.replicate (max 24 "T".length) '-'), "(no data)"]) :=
  summary_sort_limit_spec.2.2.2.2 TimeTracker.initState 0 "T" (by norm_num)

/-- C6: `summary(reset=True)` renders, emits and returns exactly what the same
call without reset would (the table reflects the pre-reset store), clears the
store only afterwards, and a subsequent `summary` on the resulting tracker
yields the empty `"(no data)"` table. -/
theorem summary_reset_preserves_render (st : TrackerState) (sort_by : String)
    (d : Bool) (lim : Option ℤ) (title title2 : String) (h : sort_by ∈ keyNames) :
    (summary st sort_by d lim true title).2.2 =
      (summary st sort_by d lim false title).2.2 ∧
    (summary st sort_by d lim true title).2.1 =
      (summary st sort_by d lim false title).2.1 ∧
    (summary st sort_by d lim true title).1.records = [] ∧
    (summary (summary st sort_by d lim true title).1 sort_by d lim false title2).2.2 =
      .ok (String.intercalate "\n"
        [title2, String.mk (List.replicate (max 24 title2.length) '-'), "(no data)"]) := by
  have h1 : (summary st sort_by d lim true title).1 = clear st := by
    simp [summary, if_pos h]
  refine ⟨?_, ?_, ?_, ?_⟩
  · simp only [summary, if_pos h]
  · simp only [summary, if_pos h]
  · rw [h1]
    rfl
  · rw [h1]
    simp only [summary, if_pos h, clear, _compute_stats, sortStats_nil, applyLimit_nil,
      _render_summary]

/-- C6 witness: a store holding one sample for task `"A"`, summarised with
`reset=True` and then summarised again. -/
theorem summary_reset_preserves_render_witness :
    (summary ⟨[("A", [2])], false, "s", "INFO"⟩ "total" true none true "T").2.2 =
      (summary ⟨[("A", [2])], false, "s", "INFO"⟩ "total" true none false "T").2.2 ∧
    (summary ⟨[("A", [2])], false, "s", "INFO"⟩ "total" true none true "T").2.1 =
      (summary ⟨[("A", [2])], false, "s", "INFO"⟩ "total" true none false "T").2.1 ∧
    (summary ⟨[("A", [2])], false, "s", "INFO"⟩ "total" true none true "T").1.records = [] ∧
    (summary (summary ⟨[("A", [2])], false, "s", "INFO"⟩ "total" true none true "T").1
        "total" true none false "U").2.2 =
      .ok (String.intercalate "\n"
        ["U", String.mk (List.replicate (max 24 "U".length) '-'), "(no data)"]) :=
  summary_reset_preserves_render ⟨[("A", [2])], false, "s", "INFO"⟩ "total" true none
    "T" "U" (by decide)

/-- C9: a stored sample of 1.234 seconds renders as `"1234.000 ms"` under
`time_unit="ms"` and as `"1.234000 s"` under the default unit; the stored
sample itself is raw seconds — what `_record` appends to the store does not
depend on the configured unit. -/
theorem fmt_time_spec :
    _fmt_time "ms" (1234/1000 : ℚ) = "1234.000 ms" ∧
    _fmt_time TimeTracker.initState.time_unit (1234/1000 : ℚ) = "1.234000 s" ∧
    ∀ (st : TrackerState) (u task lvl : String) (e : ℚ) (exc : Option String),
      (_record { st with time_unit := u } task e lvl exc).1.records =
        (_record st task e lvl exc).1.records := by
  refine ⟨?_, ?_, ?_⟩
  · have h := formatFixed_eq_of_cast ((1234/1000 : ℚ) * 1000) 3 1234000 (by norm_num)
    simp only [_fmt_time, if_pos rfl, h]
    decide
  · have h := formatFixed_eq_of_cast (1234/1000 : ℚ) 6 1234000 (by norm_num)
    show _fmt_time "s" (1234/1000 : ℚ) = "1.234000 s"
    rw [_fmt_time, if_neg (by decide), h]
    decide
  · intro st u task lvl e exc
    rw [_record_fst, _record_fst]

end TimeLoguru
